import Mathlib

/-!
Shallow embedding of the cookingLola front-end (src/src/app/page.tsx and
src/src/components/CameraCapture.tsx).

Each React component is modelled as a state record mirroring its useState /
useRef cells, and each event handler as a pure function from state (plus the
outcome of its awaited browser calls) to a new state together with the
observable effects of the handler turn: upload requests issued, alert() calls,
console.error calls and object URLs created.  Two event machines sit on top of
the handlers.  recorderStep and cameraStep supply an awaited outcome together
with the triggering click, which suffices for the upload-interval properties
because the upload suspension (isSending) is explicit in the state.  The
Async machines additionally make the getUserMedia suspension explicit with a
pending-prompt counter, so a click that arrives while a permission prompt is
still pending — which the source accepts, since the guards only read the
committed state — is representable, including the double-open and stream
leak it causes.  The MediaRecorder stop event, which stop() queues ahead of
any later user interaction, is delivered within the stop turn.  Hardware
streams are tracked by explicit open-session counters so that leaking or
double-opening a stream is visible in the model.
-/

namespace CookingLola

/-- Byte content of a browser Blob. -/
def Blob : Type := List Nat

instance : DecidableEq Blob := by
  unfold Blob
  infer_instance

instance : Append Blob := by
  unfold Blob
  infer_instance

/-- An object URL created by URL.createObjectURL, identified by the bytes of
the blob it was created from. -/
structure ObjectURL where
  bytes : List Nat
deriving Repr, DecidableEq

/-- A multipart POST issued through fetch: route, form field name, filename
and the payload bytes. -/
structure UploadRequest where
  route : String
  field : String
  filename : String
  payload : List Nat
deriving Repr, DecidableEq

/-- Outcome of an awaited fetch: the response resolved with response.ok true
or false and a body, or the promise rejected (transport failure). -/
inductive FetchOutcome where
  | resolved (ok : Bool) (body : List Nat)
  | netError
deriving Repr, DecidableEq

/-- Outcome of an awaited navigator.mediaDevices.getUserMedia call.
The camera flow distinguishes a NotAllowedError / PermissionDeniedError from
other Error instances and from non-Error throwables. -/
inductive GumOutcome where
  | granted
  | notAllowed
  | deviceError (msg : String)
  | unknownErr
deriving Repr, DecidableEq

/-- State of one handler turn: the post-state plus the effects the turn
performed. -/
structure Result (σ : Type) where
  state : σ
  requests : List UploadRequest := []
  alerts : List String := []
  consoleErrors : List String := []
  urlsCreated : List (List Nat) := []

/-- An <audio> element as rendered by the JSX, keeping only the fields the
spec talks about. -/
structure AudioElem where
  src : ObjectURL
  autoPlay : Bool
deriving Repr, DecidableEq

/-! ## AudioRecorder (src/src/app/page.tsx) -/

/-- The useState / useRef cells of the AudioRecorder component, plus
bookkeeping for the hardware resource: micOpen is whether the stream obtained
by the last handleStartRecording still has live tracks, and micSessions counts
how many microphone streams are currently open in total. -/
structure RecorderState where
  isRecording : Bool
  audioBlob : Option (List Nat)
  replyAudio : Option ObjectURL
  isSending : Bool
  audioChunks : List (List Nat)
  recorderActive : Bool
  micOpen : Bool
  micSessions : Nat
deriving Repr, DecidableEq

def initialRecorderState : RecorderState :=
  { isRecording := false
    audioBlob := none
    replyAudio := none
    isSending := false
    audioChunks := []
    recorderActive := false
    micOpen := false
    micSessions := 0 }

/-- handleStartRecording: awaits getUserMedia; on success stores the stream,
sets isRecording, clears the chunk list and installs a fresh MediaRecorder;
on any failure the catch block only logs to the console and no state cell is
written. -/
def handleStartRecording (s : RecorderState) (g : GumOutcome) : Result RecorderState :=
  match g with
  | .granted =>
      { state := { s with
          isRecording := true
          audioChunks := []
          recorderActive := true
          micOpen := true
          micSessions := s.micSessions + 1 } }
  | _ => { state := s, consoleErrors := ["Error accessing the microphone:"] }

/-- The recorder's ondataavailable callback: pushes the fragment onto the
chunk list when event.data.size > 0. -/
def ondataavailable (s : RecorderState) (data : List Nat) : RecorderState :=
  if 0 < data.length then { s with audioChunks := s.audioChunks ++ [data] } else s

/-- The recorder's onstop callback: concatenates the accumulated chunks into
the single audioBlob and stops the tracks of the stream captured by the
closure. -/
def onstop (s : RecorderState) : RecorderState :=
  { s with
      audioBlob := some s.audioChunks.flatten
      micOpen := false
      micSessions := s.micSessions - 1 }

/-- handleStopRecording: when a recorder exists and isRecording, calls
stop() (whose queued stop event is delivered in the same turn) and clears
isRecording. -/
def handleStopRecording (s : RecorderState) : RecorderState :=
  if s.recorderActive && s.isRecording then onstop { s with isRecording := false }
  else s

def audioUploadRequest (payload : List Nat) : UploadRequest :=
  { route := "/api/upload-audio"
    field := "audio"
    filename := "recording.wav"
    payload := payload }

/-- The synchronous first phase of handleSendAudio, up to the awaited fetch: the
guard on audioBlob, the FormData construction and setIsSending(true).  The
returned request list is the POST issued. -/
def sendAudioStart (s : RecorderState) : RecorderState × List UploadRequest :=
  match s.audioBlob with
  | none => (s, [])
  | some b => ({ s with isSending := true }, [audioUploadRequest b])

/-- The continuation of handleSendAudio after the fetch settles: on ok the
whole body becomes a blob, an object URL is created and stored in replyAudio
and an alert is shown; on !ok an alert is shown and the function returns; on a
rejected promise only console.error runs.  The finally block clears
isSending on every path. -/
def sendAudioResolve (s : RecorderState) (o : FetchOutcome) : Result RecorderState :=
  match o with
  | .resolved true body =>
      { state := { s with replyAudio := some ⟨body⟩, isSending := false }
        alerts := ["Lola sent a reply!"]
        urlsCreated := [body] }
  | .resolved false _ =>
      { state := { s with isSending := false }
        alerts := ["Error uploading the audio."] }
  | .netError =>
      { state := { s with isSending := false }
        consoleErrors := ["Error in fetch:"] }

/-- handleSendAudio as one whole turn: start phase followed by resolution. -/
def handleSendAudio (s : RecorderState) (o : FetchOutcome) : Result RecorderState :=
  match s.audioBlob with
  | none => { state := s }
  | some b =>
      let r := sendAudioResolve { s with isSending := true } o
      { r with requests := [audioUploadRequest b] }

/-- A full recording session started from s: permission granted, the given
fragments delivered by ondataavailable in order, then the stop click. -/
def runRecordingSession (s : RecorderState) (frags : List (List Nat)) : RecorderState :=
  handleStopRecording (frags.foldl ondataavailable (handleStartRecording s .granted).state)

/-- The reply <audio> element of the page: rendered iff replyAudio is set,
with the autoPlay attribute. -/
def renderRecorderReply (s : RecorderState) : Option AudioElem :=
  s.replyAudio.map fun u => { src := u, autoPlay := true }

/-! ## CameraCapture (src/src/components/CameraCapture.tsx) -/

/-- The useState cells of the CameraCapture component; stream is whether a
MediaStream is held in state, camSessions counts open camera hardware
sessions, and photo holds the captured PNG bytes (the data URL content). -/
structure CameraState where
  stream : Bool
  camSessions : Nat
  photo : Option (List Nat)
  error : Option String
  isSending : Bool
  lolaReply : Option ObjectURL
deriving Repr, DecidableEq

def initialCameraState : CameraState :=
  { stream := false
    camSessions := 0
    photo := none
    error := none
    isSending := false
    lolaReply := none }

/-- The permission-denied message of openCamera. -/
def cameraDeniedMsg : String :=
  "Camera permission was denied. Please allow camera access in your browser settings."

/-- The unknown-throwable message of openCamera. -/
def cameraUnknownMsg : String :=
  "An unknown error occurred while accessing the camera."

/-- openCamera: clears photo and error, then awaits getUserMedia; on success
stores the stream, on failure sets a user-visible error message chosen by the
error's name. -/
def openCamera (s : CameraState) (g : GumOutcome) : Result CameraState :=
  let s0 := { s with photo := (none : Option (List Nat)), error := (none : Option String) }
  match g with
  | .granted =>
      { state := { s0 with stream := true, camSessions := s0.camSessions + 1 } }
  | .notAllowed =>
      { state := { s0 with error := some cameraDeniedMsg }
        consoleErrors := ["Error accessing camera:"] }
  | .deviceError m =>
      { state := { s0 with error := some ("Could not access the camera: " ++ m) }
        consoleErrors := ["Error accessing camera:"] }
  | .unknownErr =>
      { state := { s0 with error := some cameraUnknownMsg }
        consoleErrors := ["Error accessing camera:"] }

/-- closeCamera: stops all tracks of the held stream (if any) and drops it
from state. -/
def closeCamera (s : CameraState) : CameraState :=
  { s with
      stream := false
      camSessions := if s.stream then s.camSessions - 1 else s.camSessions }

def photoUploadRequest (payload : List Nat) : UploadRequest :=
  { route := "/api/upload-image"
    field := "photo"
    filename := "photo.png"
    payload := payload }

/-- The synchronous first phase of takePhoto once its refs-and-stream guard has
passed: draw the frame, store the data URL in photo, closeCamera, set
isSending and clear error and lolaReply; the POST of the encoded frame is
issued. -/
def takePhotoCapture (s : CameraState) (shot : List Nat) : CameraState × List UploadRequest :=
  let s1 := closeCamera { s with photo := some shot }
  ({ s1 with isSending := true, error := none, lolaReply := none },
   [photoUploadRequest shot])

/-- The shared tail of takePhoto and sendToLola after their fetch settles:
on ok the whole body becomes an audio blob, an object URL is created and
stored in lolaReply; a !ok response throws, and the catch block (also reached
on transport failure) logs to the console and sets the given user-visible
error message.  The finally block clears isSending on every path. -/
def photoUploadResolve (errMsg : String) (s : CameraState) (o : FetchOutcome) :
    Result CameraState :=
  match o with
  | .resolved true body =>
      { state := { s with lolaReply := some ⟨body⟩, isSending := false }
        urlsCreated := [body] }
  | .resolved false _ =>
      { state := { s with error := some errMsg, isSending := false }
        consoleErrors := ["Error sending photo to Lola:"] }
  | .netError =>
      { state := { s with error := some errMsg, isSending := false }
        consoleErrors := ["Error sending photo to Lola:"] }

/-- takePhoto as one whole turn: no-op when the stream guard fails, otherwise
capture followed by upload resolution. -/
def takePhoto (s : CameraState) (shot : List Nat) (o : FetchOutcome) : Result CameraState :=
  if s.stream then
    let p := takePhotoCapture s shot
    let r := photoUploadResolve "There was an error sending the photo to Lola." p.1 o
    { r with requests := p.2 ++ r.requests }
  else { state := s }

/-- retakePhoto: clears the captured photo and any error message; nothing
else. -/
def retakePhoto (s : CameraState) : CameraState :=
  { s with photo := none, error := none }

/-- sendToLola: guarded on photo; sets isSending, clears error and lolaReply,
re-fetches the data URL into a blob and posts it, then resolves like
takePhoto (its catch message has a spelling slip in the source). -/
def sendToLola (s : CameraState) (o : FetchOutcome) : Result CameraState :=
  match s.photo with
  | none => { state := s }
  | some p =>
      let s1 := { s with isSending := true, error := (none : Option String),
                         lolaReply := (none : Option ObjectURL) }
      let r := photoUploadResolve "There was an errror sending the photo to Lola." s1 o
      { r with requests := [photoUploadRequest p] }

/-- The camera reply <audio> element: rendered iff lolaReply is set, with the
autoPlay attribute. -/
def renderCameraReply (s : CameraState) : Option AudioElem :=
  s.lolaReply.map fun u => { src := u, autoPlay := true }

/-! ## Event-level step machines

The UI wiring: which handler each rendered control dispatches to, with the
render conditions and disabled attributes of the JSX.  Upload resolutions
arrive as their own events, so the isSending interval is visible as a state.
In these two machines the getUserMedia outcome is supplied with the click
that requested it; the permission-prompt suspension itself is modelled by
the Async machines further down. -/

inductive RecorderEvent where
  | mainClick (g : GumOutcome)
  | dataAvail (data : List Nat)
  | sendClick
  | uploadResolve (o : FetchOutcome)

/-- One event turn of the AudioRecorder with the requests it issues.  The
main button toggles between stop and start; the send button is rendered only
when audioBlob is set and carries disabled when isSending. -/
def recorderStep (s : RecorderState) (e : RecorderEvent) :
    RecorderState × List UploadRequest :=
  match e with
  | .mainClick g =>
      if s.isRecording then (handleStopRecording s, [])
      else ((handleStartRecording s g).state, [])
  | .dataAvail d =>
      if s.recorderActive then (ondataavailable s d, []) else (s, [])
  | .sendClick =>
      if s.audioBlob.isSome && !s.isSending then sendAudioStart s else (s, [])
  | .uploadResolve o =>
      if s.isSending then ((sendAudioResolve s o).state, []) else (s, [])

inductive CameraEvent where
  | smartClick (g : GumOutcome) (shot : List Nat)
  | retakeClick
  | uploadResolve (o : FetchOutcome)

/-- One event turn of the CameraCapture component.  The smart button is
rendered only when photo is unset and carries disabled when isSending; it
dispatches takePhoto when a stream is held and openCamera otherwise.  The
retake button is rendered only when photo is set. -/
def cameraStep (s : CameraState) (e : CameraEvent) :
    CameraState × List UploadRequest :=
  match e with
  | .smartClick g shot =>
      if s.photo.isSome || s.isSending then (s, [])
      else if s.stream then takePhotoCapture s shot
      else ((openCamera s g).state, [])
  | .retakeClick =>
      if s.photo.isSome then (retakePhoto s, []) else (s, [])
  | .uploadResolve o =>
      if s.isSending then
        ((photoUploadResolve "There was an error sending the photo to Lola." s o).state, [])
      else (s, [])

/-- The resource invariant of the recorder: the microphone session count
matches isRecording, the held stream is live exactly while recording, and a
recorder object exists whenever recording. -/
def recorderInv (s : RecorderState) : Prop :=
  s.micSessions = (if s.isRecording then 1 else 0) ∧
  s.micOpen = s.isRecording ∧
  (s.isRecording = true → s.recorderActive = true)

/-- The resource invariant of the camera: the camera session count matches
whether a stream is held. -/
def cameraInv (s : CameraState) : Prop :=
  s.camSessions = (if s.stream then 1 else 0)

/-! ## Prompt-suspension (Async) machines

The getUserMedia call suspends its handler at the permission prompt.  Until
the promise settles, no state cell has been written, so the guards that
dispatch further clicks still see the pre-click state: a second click during
a pending microphone prompt re-enters handleStartRecording.  These machines
carry the number of outstanding prompts in the state and deliver each
settlement as its own event, so such overlaps are representable. -/

/-- AudioRecorder state together with the number of getUserMedia promises
still pending from handleStartRecording. -/
structure RecorderAsync where
  core : RecorderState
  micPending : Nat
deriving Repr, DecidableEq

def initialRecorderAsync : RecorderAsync :=
  { core := initialRecorderState, micPending := 0 }

inductive RecorderAsyncEvent where
  | mainClick
  | gumSettle (g : GumOutcome)
  | dataAvail (data : List Nat)
  | sendClick
  | uploadResolve (o : FetchOutcome)

/-- One event turn of the AudioRecorder with the permission prompt as a real
suspension: a main-button click while not recording only issues the
getUserMedia request (nothing in handleStartRecording precedes the await),
and the continuation runs when the promise settles — unconditionally, even
if another recording has started in between, which is how a second granted
prompt opens a second stream. -/
def recorderAsyncStep (t : RecorderAsync) (e : RecorderAsyncEvent) :
    RecorderAsync × List UploadRequest :=
  match e with
  | .mainClick =>
      if t.core.isRecording then ({ t with core := handleStopRecording t.core }, [])
      else ({ t with micPending := t.micPending + 1 }, [])
  | .gumSettle g =>
      if 0 < t.micPending then
        ({ core := (handleStartRecording t.core g).state, micPending := t.micPending - 1 }, [])
      else (t, [])
  | .dataAvail d =>
      if t.core.recorderActive then ({ t with core := ondataavailable t.core d }, [])
      else (t, [])
  | .sendClick =>
      if t.core.audioBlob.isSome && !t.core.isSending then
        ({ t with core := (sendAudioStart t.core).1 }, (sendAudioStart t.core).2)
      else (t, [])
  | .uploadResolve o =>
      if t.core.isSending then ({ t with core := (sendAudioResolve t.core o).state }, [])
      else (t, [])

def recorderAsyncRun (t : RecorderAsync) (es : List RecorderAsyncEvent) : RecorderAsync :=
  es.foldl (fun u e => (recorderAsyncStep u e).1) t

/-- States of the AudioRecorder reachable from mount through async event
turns. -/
inductive RecorderAsyncReachable : RecorderAsync → Prop where
  | init : RecorderAsyncReachable initialRecorderAsync
  | step (t : RecorderAsync) (e : RecorderAsyncEvent) :
      RecorderAsyncReachable t → RecorderAsyncReachable (recorderAsyncStep t e).1

/-- The recorder executions in which every permission prompt settles before
the next user interaction: a start click is immediately followed by its
getUserMedia settlement, so prompts never overlap with further clicks. -/
inductive RecorderPromptSerialized : RecorderAsync → Prop where
  | init : RecorderPromptSerialized initialRecorderAsync
  | stepStop (t : RecorderAsync) : t.core.isRecording = true →
      RecorderPromptSerialized t →
      RecorderPromptSerialized (recorderAsyncStep t .mainClick).1
  | stepStartSettle (t : RecorderAsync) (g : GumOutcome) : t.core.isRecording = false →
      RecorderPromptSerialized t →
      RecorderPromptSerialized
        (recorderAsyncStep (recorderAsyncStep t .mainClick).1 (.gumSettle g)).1
  | stepData (t : RecorderAsync) (d : List Nat) :
      RecorderPromptSerialized t →
      RecorderPromptSerialized (recorderAsyncStep t (.dataAvail d)).1
  | stepSend (t : RecorderAsync) :
      RecorderPromptSerialized t →
      RecorderPromptSerialized (recorderAsyncStep t .sendClick).1
  | stepUpload (t : RecorderAsync) (o : FetchOutcome) :
      RecorderPromptSerialized t →
      RecorderPromptSerialized (recorderAsyncStep t (.uploadResolve o)).1

/-- setStream(newStream) as committed by a granted openCamera continuation:
the new hardware session is open in addition to whatever was open before. -/
def setStreamOnGrant (s : CameraState) : CameraState :=
  { s with stream := true, camSessions := s.camSessions + 1 }

/-- The stream-keyed useEffect cleanup that React runs at the commit
following a stream change: it stops the tracks of the previously held
stream, if one was held. -/
def commitCleanup (hadStream : Bool) (s : CameraState) : CameraState :=
  if hadStream then { s with camSessions := s.camSessions - 1 } else s

/-- The continuation of openCamera after its getUserMedia promise settles:
on grant the new stream is stored (and the superseded one, if any, is
stopped by the effect cleanup at the same commit); on failure the
user-visible error message is chosen by the error's name. -/
def openCameraSettle (s : CameraState) (g : GumOutcome) : CameraState :=
  match g with
  | .granted => commitCleanup s.stream (setStreamOnGrant s)
  | .notAllowed => { s with error := some cameraDeniedMsg }
  | .deviceError m => { s with error := some ("Could not access the camera: " ++ m) }
  | .unknownErr => { s with error := some cameraUnknownMsg }

/-- CameraCapture state together with the number of getUserMedia promises
still pending from openCamera. -/
structure CameraAsync where
  core : CameraState
  camPending : Nat
deriving Repr, DecidableEq

def initialCameraAsync : CameraAsync :=
  { core := initialCameraState, camPending := 0 }

inductive CameraAsyncEvent where
  | smartClick (shot : List Nat)
  | gumSettle (g : GumOutcome)
  | retakeClick
  | uploadResolve (o : FetchOutcome)

/-- One event turn of the CameraCapture component with the permission prompt
as a real suspension: a smart-button click with no stream held runs only the
synchronous head of openCamera (clear photo and error) and issues the
getUserMedia request; the continuation runs when the promise settles. -/
def cameraAsyncStep (t : CameraAsync) (e : CameraAsyncEvent) :
    CameraAsync × List UploadRequest :=
  match e with
  | .smartClick shot =>
      if t.core.photo.isSome || t.core.isSending then (t, [])
      else if t.core.stream then
        ({ t with core := (takePhotoCapture t.core shot).1 }, (takePhotoCapture t.core shot).2)
      else
        ({ core := { t.core with photo := none, error := none },
           camPending := t.camPending + 1 }, [])
  | .gumSettle g =>
      if 0 < t.camPending then
        ({ core := openCameraSettle t.core g, camPending := t.camPending - 1 }, [])
      else (t, [])
  | .retakeClick =>
      if t.core.photo.isSome then ({ t with core := retakePhoto t.core }, []) else (t, [])
  | .uploadResolve o =>
      if t.core.isSending then
        ({ t with core := (photoUploadResolve "There was an error sending the photo to Lola." t.core o).state }, [])
      else (t, [])

def cameraAsyncRun (t : CameraAsync) (es : List CameraAsyncEvent) : CameraAsync :=
  es.foldl (fun u e => (cameraAsyncStep u e).1) t

/-- States of the CameraCapture component reachable from mount through async
event turns. -/
inductive CameraAsyncReachable : CameraAsync → Prop where
  | init : CameraAsyncReachable initialCameraAsync
  | step (t : CameraAsync) (e : CameraAsyncEvent) :
      CameraAsyncReachable t → CameraAsyncReachable (cameraAsyncStep t e).1

/-! ## Helper lemmas -/

lemma ondataavailable_fields (s : RecorderState) (d : List Nat) :
    (ondataavailable s d).isRecording = s.isRecording ∧
    (ondataavailable s d).recorderActive = s.recorderActive ∧
    (ondataavailable s d).micOpen = s.micOpen ∧
    (ondataavailable s d).micSessions = s.micSessions ∧
    (ondataavailable s d).audioChunks.flatten = s.audioChunks.flatten ++ d := by
  unfold ondataavailable
  by_cases h : 0 < d.length
  · simp [h]
  · have hd : d = [] := List.length_eq_zero.mp (Nat.le_zero.mp (Nat.not_lt.mp h))
    simp [h, hd]

lemma foldl_ondataavailable (frags : List (List Nat)) (s : RecorderState) :
    (frags.foldl ondataavailable s).isRecording = s.isRecording ∧
    (frags.foldl ondataavailable s).recorderActive = s.recorderActive ∧
    (frags.foldl ondataavailable s).micOpen = s.micOpen ∧
    (frags.foldl ondataavailable s).micSessions = s.micSessions ∧
    (frags.foldl ondataavailable s).audioChunks.flatten =
      s.audioChunks.flatten ++ frags.flatten := by
  induction frags generalizing s with
  | nil => simp
  | cons d rest ih =>
    obtain ⟨h1, h2, h3, h4, h5⟩ := ondataavailable_fields s d
    obtain ⟨g1, g2, g3, g4, g5⟩ := ih (ondataavailable s d)
    refine ⟨?_, ?_, ?_, ?_, ?_⟩ <;>
      simp only [List.foldl_cons, g1, g2, g3, g4, g5, h1, h2, h3, h4, h5,
        List.flatten_cons, List.append_assoc]

/-! ## Claim theorems -/

/-- C8: the recorded audio artifact produced on stop equals the concatenation,
in arrival order, of all binary fragments delivered during the recording:
each ondataavailable fragment is appended to the chunk list (the size-zero
ones the handler skips are empty, so they do not change the concatenation),
and onstop builds the single buffer from that ordered list. -/
theorem recorded_blob_is_fragment_concatenation (s : RecorderState)
    (frags : List (List Nat)) :
    (runRecordingSession s frags).audioBlob = some frags.flatten := by
  unfold runRecordingSession
  obtain ⟨h1, h2, _, _, h5⟩ :=
    foldl_ondataavailable frags (handleStartRecording s .granted).state
  simp only [handleStartRecording] at h1 h2 h5 ⊢
  simp [handleStopRecording, h1, h2, onstop, h5]

/-- C6: retakePhoto always returns the component to Idle — it clears the
captured photo and any error message — issues no network request, and leaves
all other state (in particular the stored reply resource) unchanged. -/
theorem retake_returns_to_idle_without_request (s : CameraState) :
    (retakePhoto s).photo = none ∧
    (retakePhoto s).error = none ∧
    (retakePhoto s).lolaReply = s.lolaReply ∧
    (retakePhoto s).stream = s.stream ∧
    (retakePhoto s).camSessions = s.camSessions ∧
    (retakePhoto s).isSending = s.isSending ∧
    (cameraStep s .retakeClick).2 = [] := by
  unfold retakePhoto cameraStep
  by_cases h : s.photo.isSome <;> simp [h, retakePhoto]

/-- C7: every upload posts a multipart form with a fixed route, field name
and filename: the audio artifact goes to /api/upload-audio as field "audio"
with filename "recording.wav", and the image artifact to /api/upload-image
as field "photo" with filename "photo.png", in every exchange of every
handler. -/
theorem upload_requests_have_fixed_shape :
    (∀ (s : RecorderState) (b : List Nat) (o : FetchOutcome),
      (handleSendAudio { s with audioBlob := some b } o).requests
        = [audioUploadRequest b]) ∧
    (∀ (s : RecorderState) (o : FetchOutcome), ((handleSendAudio s o).requests.all fun r =>
        r.route == "/api/upload-audio" && r.field == "audio" &&
          r.filename == "recording.wav") = true) ∧
    (∀ (s : CameraState) (shot : List Nat) (o : FetchOutcome),
      (takePhoto { s with stream := true } shot o).requests
        = [photoUploadRequest shot]) ∧
    (∀ (s : CameraState) (shot : List Nat) (o : FetchOutcome),
      ((takePhoto s shot o).requests.all fun r =>
        r.route == "/api/upload-image" && r.field == "photo" &&
          r.filename == "photo.png") = true) ∧
    (∀ (s : CameraState) (p : List Nat) (o : FetchOutcome),
      (sendToLola { s with photo := some p } o).requests
        = [photoUploadRequest p]) ∧
    (∀ (s : CameraState) (o : FetchOutcome), ((sendToLola s o).requests.all fun r =>
        r.route == "/api/upload-image" && r.field == "photo" &&
          r.filename == "photo.png") = true) := by
  refine ⟨?_, ?_, ?_, ?_, ?_, ?_⟩
  · intro s b o
    simp [handleSendAudio]
  · intro s o
    cases hb : s.audioBlob with
    | none => simp [handleSendAudio, hb]
    | some b => simp [handleSendAudio, hb, audioUploadRequest]
  · intro s shot o
    cases o with
    | resolved ok body =>
        cases ok <;> simp [takePhoto, takePhotoCapture, photoUploadResolve]
    | netError => simp [takePhoto, takePhotoCapture, photoUploadResolve]
  · intro s shot o
    by_cases hs : s.stream
    · cases o with
      | resolved ok body =>
          cases ok <;>
            simp [takePhoto, hs, takePhotoCapture, photoUploadResolve, photoUploadRequest]
      | netError =>
          simp [takePhoto, hs, takePhotoCapture, photoUploadResolve, photoUploadRequest]
    · simp [takePhoto, hs]
  · intro s p o
    cases o with
    | resolved ok body => cases ok <;> simp [sendToLola, photoUploadResolve]
    | netError => simp [sendToLola, photoUploadResolve]
  · intro s o
    cases hp : s.photo with
    | none => simp [sendToLola, hp]
    | some p =>
        cases o with
        | resolved ok body =>
            cases ok <;> simp [sendToLola, hp, photoUploadResolve, photoUploadRequest]
        | netError => simp [sendToLola, hp, photoUploadResolve, photoUploadRequest]

/-- C9: when the backend responds with a success status, the entire response
body is interpreted as binary audio, a new playable object reference is
created from it, it is stored as the reply resource, and the rendered reply
element carries the autoPlay attribute. -/
theorem success_stores_autoplaying_reply :
    (∀ (s : RecorderState) (b body : List Nat),
      (handleSendAudio { s with audioBlob := some b } (.resolved true body)).state.replyAudio
          = some ⟨body⟩ ∧
      (handleSendAudio { s with audioBlob := some b } (.resolved true body)).urlsCreated
          = [body] ∧
      renderRecorderReply
          (handleSendAudio { s with audioBlob := some b } (.resolved true body)).state
          = some { src := ⟨body⟩, autoPlay := true }) ∧
    (∀ (s : CameraState) (shot body : List Nat),
      (takePhoto { s with stream := true } shot (.resolved true body)).state.lolaReply
          = some ⟨body⟩ ∧
      (takePhoto { s with stream := true } shot (.resolved true body)).urlsCreated
          = [body] ∧
      renderCameraReply
          (takePhoto { s with stream := true } shot (.resolved true body)).state
          = some { src := ⟨body⟩, autoPlay := true }) := by
  constructor
  · intro s b body
    refine ⟨?_, ?_, ?_⟩ <;>
      simp [handleSendAudio, sendAudioResolve, renderRecorderReply]
  · intro s shot body
    refine ⟨?_, ?_, ?_⟩ <;>
      simp [takePhoto, takePhotoCapture, closeCamera, photoUploadResolve, renderCameraReply]

/-- C10: a failed upload in the recorder flow leaves the rest of the
component state unchanged: after a non-success status or a transport error,
the recorded artifact audioBlob and the reply resource replyAudio from an
earlier exchange keep their prior values. -/
theorem failed_send_preserves_recorder_state :
    ∀ (s : RecorderState) (b body : List Nat),
      ((handleSendAudio { s with audioBlob := some b } (.resolved false body)).state.audioBlob
          = some b ∧
       (handleSendAudio { s with audioBlob := some b } (.resolved false body)).state.replyAudio
          = s.replyAudio) ∧
      ((handleSendAudio { s with audioBlob := some b } .netError).state.audioBlob = some b ∧
       (handleSendAudio { s with audioBlob := some b } .netError).state.replyAudio
          = s.replyAudio) := by
  intro s b body
  refine ⟨⟨?_, ?_⟩, ⟨?_, ?_⟩⟩ <;> simp [handleSendAudio, sendAudioResolve]

/-- C1: if the POST resolves with a non-success status or the request fails
in transport, no new playable reply resource is produced: handleSendAudio
leaves replyAudio at its prior value, takePhoto and sendToLola leave
lolaReply unset, no object URL is created, and an error is reported (alert or
console in the recorder flow, a user-visible message in the camera flow). -/
theorem upload_failure_produces_no_reply :
    (∀ (s : RecorderState) (b body : List Nat),
      (handleSendAudio { s with audioBlob := some b } (.resolved false body)).state.replyAudio
          = s.replyAudio ∧
      (handleSendAudio { s with audioBlob := some b } (.resolved false body)).urlsCreated
          = [] ∧
      (handleSendAudio { s with audioBlob := some b } (.resolved false body)).alerts
          = ["Error uploading the audio."]) ∧
    (∀ (s : RecorderState) (b : List Nat),
      (handleSendAudio { s with audioBlob := some b } .netError).state.replyAudio
          = s.replyAudio ∧
      (handleSendAudio { s with audioBlob := some b } .netError).urlsCreated = [] ∧
      (handleSendAudio { s with audioBlob := some b } .netError).consoleErrors
          = ["Error in fetch:"]) ∧
    (∀ (s : CameraState) (shot body : List Nat),
      (takePhoto { s with stream := true } shot (.resolved false body)).state.lolaReply
          = none ∧
      (takePhoto { s with stream := true } shot (.resolved false body)).urlsCreated = [] ∧
      (takePhoto { s with stream := true } shot (.resolved false body)).state.error.isSome
          = true) ∧
    (∀ (s : CameraState) (shot : List Nat),
      (takePhoto { s with stream := true } shot .netError).state.lolaReply = none ∧
      (takePhoto { s with stream := true } shot .netError).urlsCreated = [] ∧
      (takePhoto { s with stream := true } shot .netError).state.error.isSome = true) ∧
    (∀ (s : CameraState) (p body : List Nat),
      (sendToLola { s with photo := some p } (.resolved false body)).state.lolaReply
          = none ∧
      (sendToLola { s with photo := some p } (.resolved false body)).urlsCreated = [] ∧
      (sendToLola { s with photo := some p } (.resolved false body)).state.error.isSome
          = true) ∧
    (∀ (s : CameraState) (p : List Nat),
      (sendToLola { s with photo := some p } .netError).state.lolaReply = none ∧
      (sendToLola { s with photo := some p } .netError).urlsCreated = [] ∧
      (sendToLola { s with photo := some p } .netError).state.error.isSome = true) := by
  refine ⟨?_, ?_, ?_, ?_, ?_, ?_⟩ <;> intro s x <;>
    first
      | (intro y
         refine ⟨?_, ?_, ?_⟩ <;>
           simp [handleSendAudio, sendAudioResolve, takePhoto, takePhotoCapture,
             closeCamera, photoUploadResolve, sendToLola])
      | (refine ⟨?_, ?_, ?_⟩ <;>
           simp [handleSendAudio, sendAudioResolve, takePhoto, takePhotoCapture,
             closeCamera, photoUploadResolve, sendToLola])

/-- C2 counterexample: when the user denies microphone permission,
handleStartRecording leaves the state at Idle with no recording artifact, but
it reports the error only through console.error — the recorder component has
no error display and raises no alert — so no error message is shown to the
user, contrary to the claim. -/
theorem mic_denial_shows_no_user_message :
    (handleStartRecording initialRecorderState .notAllowed).state = initialRecorderState ∧
    (handleStartRecording initialRecorderState .notAllowed).alerts = [] ∧
    (handleStartRecording initialRecorderState .notAllowed).consoleErrors
      = ["Error accessing the microphone:"] :=
  ⟨rfl, rfl, rfl⟩

/-- C2 amended: every error is caught at the point of occurrence and is never
fatal, but only the camera flow converts every getUserMedia failure to a
user-visible message (distinguishing permission denial from other device
errors).  In the recorder flow a denied microphone permission leaves every
state cell unchanged — the state stays Idle and no recording artifact exists
— yet the error is only logged to the console, with no user-visible message;
likewise the recorder's transport failure only logs, while its non-success
HTTP response does alert the user. -/
theorem errors_caught_where_they_occur :
    (∀ s : RecorderState,
      (handleStartRecording s .notAllowed).state = s ∧
      (handleStartRecording s .notAllowed).alerts = [] ∧
      (handleStartRecording s .notAllowed).consoleErrors
        = ["Error accessing the microphone:"]) ∧
    (∀ (s : RecorderState) (m : String),
      (handleStartRecording s (.deviceError m)).state = s ∧
      (handleStartRecording s (.deviceError m)).alerts = []) ∧
    (∀ s : CameraState, (openCamera s .notAllowed).state.error = some cameraDeniedMsg) ∧
    (∀ (s : CameraState) (m : String),
      (openCamera s (.deviceError m)).state.error
        = some ("Could not access the camera: " ++ m)) ∧
    (∀ s : CameraState, (openCamera s .unknownErr).state.error = some cameraUnknownMsg) ∧
    (∀ (s : RecorderState) (b body : List Nat),
      (handleSendAudio { s with audioBlob := some b } (.resolved false body)).alerts
        = ["Error uploading the audio."]) ∧
    (∀ (s : RecorderState) (b : List Nat),
      (handleSendAudio { s with audioBlob := some b } .netError).alerts = [] ∧
      (handleSendAudio { s with audioBlob := some b } .netError).consoleErrors
        = ["Error in fetch:"]) := by
  refine ⟨?_, ?_, ?_, ?_, ?_, ?_, ?_⟩
  · intro s
    exact ⟨rfl, rfl, rfl⟩
  · intro s m
    exact ⟨rfl, rfl⟩
  · intro s
    simp [openCamera]
  · intro s m
    simp [openCamera]
  · intro s
    simp [openCamera]
  · intro s b body
    simp [handleSendAudio, sendAudioResolve]
  · intro s b
    constructor <;> simp [handleSendAudio, sendAudioResolve]

/-- C3: while an upload is in flight (isSending set) no event turn of either
component issues a request — the send/capture controls are disabled — and the
submission phase itself sets isSending while every resolution clears it, so
the control is disabled for the entire interval between submission and
resolution and at most one upload cycle is in flight at any time. -/
theorem send_control_disabled_while_uploading :
    (∀ (s : RecorderState) (e : RecorderEvent),
      s.isSending = true → (recorderStep s e).2 = []) ∧
    (∀ (s : CameraState) (e : CameraEvent),
      s.isSending = true → (cameraStep s e).2 = []) ∧
    (∀ (s : RecorderState) (b : List Nat),
      (sendAudioStart { s with audioBlob := some b }).1.isSending = true) ∧
    (∀ (s : CameraState) (shot : List Nat),
      (takePhotoCapture s shot).1.isSending = true) ∧
    (∀ (s : RecorderState) (o : FetchOutcome),
      (sendAudioResolve s o).state.isSending = false) ∧
    (∀ (em : String) (s : CameraState) (o : FetchOutcome),
      (photoUploadResolve em s o).state.isSending = false) := by
  refine ⟨?_, ?_, ?_, ?_, ?_, ?_⟩
  · intro s e h
    cases e with
    | mainClick g => by_cases hr : s.isRecording <;> simp [recorderStep, hr]
    | dataAvail d => by_cases hra : s.recorderActive <;> simp [recorderStep, hra]
    | sendClick => simp [recorderStep, h]
    | uploadResolve o => simp [recorderStep, h]
  · intro s e h
    cases e with
    | smartClick g shot => simp [cameraStep, h]
    | retakeClick => by_cases hp : s.photo.isSome <;> simp [cameraStep, hp]
    | uploadResolve o => simp [cameraStep, h]
  · intro s b
    simp [sendAudioStart]
  · intro s shot
    simp [takePhotoCapture]
  · intro s o
    cases o with
    | resolved ok body => cases ok <;> simp [sendAudioResolve]
    | netError => simp [sendAudioResolve]
  · intro em s o
    cases o with
    | resolved ok body => cases ok <;> simp [photoUploadResolve]
    | netError => simp [photoUploadResolve]

/-- C3 witness: a send click during an in-flight upload issues no request in
either flow. -/
theorem send_control_disabled_while_uploading_witness :
    (recorderStep { initialRecorderState with isSending := true, audioBlob := some [1] }
        .sendClick).2 = [] ∧
    (cameraStep { initialCameraState with isSending := true }
        (.smartClick .granted [2])).2 = [] :=
  ⟨send_control_disabled_while_uploading.1 _ _ rfl,
   send_control_disabled_while_uploading.2.1 _ _ rfl⟩

/-- C4: on the Streaming → Captured transition the hardware session is
released synchronously as part of the transition: the capture phase of
takePhoto stores the photo and leaves the component with no stream and zero
open camera sessions before the upload begins, and the recorder's stop turn
stores the concatenated blob with the microphone tracks stopped and zero
open microphone sessions. -/
theorem capture_transition_releases_hardware
    (c : CameraState) (shot : List Nat) (hs : c.stream = true) (hc : c.camSessions = 1)
    (r : RecorderState) (hr : r.isRecording = true) (ha : r.recorderActive = true)
    (hm : r.micSessions = 1) :
    (takePhotoCapture c shot).1.photo = some shot ∧
    (takePhotoCapture c shot).1.stream = false ∧
    (takePhotoCapture c shot).1.camSessions = 0 ∧
    (handleStopRecording r).audioBlob = some r.audioChunks.flatten ∧
    (handleStopRecording r).micOpen = false ∧
    (handleStopRecording r).micSessions = 0 := by
  refine ⟨?_, ?_, ?_, ?_, ?_, ?_⟩ <;>
    simp [takePhotoCapture, closeCamera, hs, hc, handleStopRecording, hr, ha, hm, onstop]

/-- C4 witness: a concrete capture in each flow ends with the session
released and the artifact stored. -/
theorem capture_transition_releases_hardware_witness :
    (takePhotoCapture { initialCameraState with stream := true, camSessions := 1 } [5]).1.photo
        = some [5] ∧
    (takePhotoCapture { initialCameraState with stream := true, camSessions := 1 } [5]).1.stream
        = false ∧
    (takePhotoCapture { initialCameraState with stream := true, camSessions := 1 } [5]).1.camSessions = 0 ∧
    (handleStopRecording { initialRecorderState with isRecording := true, recorderActive := true, micOpen := true, micSessions := 1, audioChunks := [[7]] }).audioBlob = some [7] ∧
    (handleStopRecording { initialRecorderState with isRecording := true, recorderActive := true, micOpen := true, micSessions := 1, audioChunks := [[7]] }).micOpen = false ∧
    (handleStopRecording { initialRecorderState with isRecording := true, recorderActive := true, micOpen := true, micSessions := 1, audioChunks := [[7]] }).micSessions = 0 :=
  capture_transition_releases_hardware _ [5] rfl rfl _ rfl rfl rfl

lemma recorderInv_init : recorderInv initialRecorderState := by
  refine ⟨rfl, rfl, ?_⟩
  intro h
  exact absurd h (by simp [initialRecorderState])

lemma recorderInv_step (s : RecorderState) (e : RecorderEvent) (h : recorderInv s) :
    recorderInv (recorderStep s e).1 := by
  obtain ⟨h1, h2, h3⟩ := h
  cases e with
  | mainClick g =>
      by_cases hr : s.isRecording
      · have ha := h3 hr
        have h1' : s.micSessions = 1 := by simpa [hr] using h1
        have hres : (recorderStep s (.mainClick g)).1
            = onstop { s with isRecording := false } := by
          simp [recorderStep, hr, handleStopRecording, ha]
        rw [hres]
        refine ⟨?_, rfl, ?_⟩
        · simp [onstop, h1']
        · intro hx
          simp [onstop] at hx
      · cases g with
        | granted =>
            have h1' : s.micSessions = 0 := by simpa [hr] using h1
            have hres : (recorderStep s (.mainClick .granted)).1
                = { s with isRecording := true, audioChunks := [], recorderActive := true, micOpen := true, micSessions := s.micSessions + 1 } := by
              simp [recorderStep, hr, handleStartRecording]
            rw [hres]
            exact ⟨by simp [h1'], rfl, fun _ => rfl⟩
        | notAllowed =>
            have hres : (recorderStep s (.mainClick .notAllowed)).1 = s := by
              simp [recorderStep, hr, handleStartRecording]
            rw [hres]
            exact ⟨h1, h2, h3⟩
        | deviceError m =>
            have hres : (recorderStep s (.mainClick (.deviceError m))).1 = s := by
              simp [recorderStep, hr, handleStartRecording]
            rw [hres]
            exact ⟨h1, h2, h3⟩
        | unknownErr =>
            have hres : (recorderStep s (.mainClick .unknownErr)).1 = s := by
              simp [recorderStep, hr, handleStartRecording]
            rw [hres]
            exact ⟨h1, h2, h3⟩
  | dataAvail d =>
      by_cases hra : s.recorderActive
      · by_cases hd : 0 < d.length
        · have hres : (recorderStep s (.dataAvail d)).1
              = { s with audioChunks := s.audioChunks ++ [d] } := by
            simp [recorderStep, hra, ondataavailable, hd]
          rw [hres]
          exact ⟨h1, h2, h3⟩
        · have hres : (recorderStep s (.dataAvail d)).1 = s := by
            simp [recorderStep, hra, ondataavailable, hd]
          rw [hres]
          exact ⟨h1, h2, h3⟩
      · have hres : (recorderStep s (.dataAvail d)).1 = s := by
          simp [recorderStep, hra]
        rw [hres]
        exact ⟨h1, h2, h3⟩
  | sendClick =>
      by_cases hc : (s.audioBlob.isSome && !s.isSending) = true
      · rw [Bool.and_eq_true] at hc
        obtain ⟨hblob, hns⟩ := hc
        have hsend : s.isSending = false := by simpa using hns
        cases hb : s.audioBlob with
        | none => rw [hb] at hblob; simp at hblob
        | some b =>
            have hres : (recorderStep s .sendClick).1 = { s with isSending := true } := by
              simp [recorderStep, sendAudioStart, hb, hsend]
            rw [hres]
            exact ⟨h1, h2, h3⟩
      · have hres : (recorderStep s .sendClick).1 = s := by
          simp only [recorderStep, if_neg hc]
        rw [hres]
        exact ⟨h1, h2, h3⟩
  | uploadResolve o =>
      by_cases hs : s.isSending
      · cases o with
        | resolved ok body =>
            cases ok with
            | true =>
                have hres : (recorderStep s (.uploadResolve (.resolved true body))).1
                    = { s with replyAudio := some ⟨body⟩, isSending := false } := by
                  simp [recorderStep, hs, sendAudioResolve]
                rw [hres]
                exact ⟨h1, h2, h3⟩
            | false =>
                have hres : (recorderStep s (.uploadResolve (.resolved false body))).1
                    = { s with isSending := false } := by
                  simp [recorderStep, hs, sendAudioResolve]
                rw [hres]
                exact ⟨h1, h2, h3⟩
        | netError =>
            have hres : (recorderStep s (.uploadResolve .netError)).1
                = { s with isSending := false } := by
              simp [recorderStep, hs, sendAudioResolve]
            rw [hres]
            exact ⟨h1, h2, h3⟩
      · have hres : (recorderStep s (.uploadResolve o)).1 = s := by
          simp [recorderStep, hs]
        rw [hres]
        exact ⟨h1, h2, h3⟩

lemma cameraInv_init : cameraInv initialCameraState := by
  simp [cameraInv, initialCameraState]

lemma recorderAsyncRun_reachable (t : RecorderAsync) (es : List RecorderAsyncEvent)
    (h : RecorderAsyncReachable t) : RecorderAsyncReachable (recorderAsyncRun t es) := by
  induction es generalizing t with
  | nil => simpa [recorderAsyncRun] using h
  | cons e rest ih =>
      have hstep := RecorderAsyncReachable.step t e h
      simpa [recorderAsyncRun] using ih (recorderAsyncStep t e).1 hstep

lemma serialized_recorder_inv (t : RecorderAsync) (h : RecorderPromptSerialized t) :
    recorderInv t.core := by
  induction h with
  | init => exact recorderInv_init
  | stepStop t hr _ ih =>
      have hc : (recorderAsyncStep t .mainClick).1.core
          = (recorderStep t.core (.mainClick .granted)).1 := by
        simp [recorderAsyncStep, recorderStep, hr]
      rw [hc]
      exact recorderInv_step _ _ ih
  | stepStartSettle t g hr _ ih =>
      have hc : (recorderAsyncStep (recorderAsyncStep t .mainClick).1 (.gumSettle g)).1.core
          = (recorderStep t.core (.mainClick g)).1 := by
        simp [recorderAsyncStep, recorderStep, hr, Nat.succ_pos]
      rw [hc]
      exact recorderInv_step _ _ ih
  | stepData t d _ ih =>
      have hc : (recorderAsyncStep t (.dataAvail d)).1.core
          = (recorderStep t.core (.dataAvail d)).1 := by
        by_cases hra : t.core.recorderActive <;> simp [recorderAsyncStep, recorderStep, hra]
      rw [hc]
      exact recorderInv_step _ _ ih
  | stepSend t _ ih =>
      have hc : (recorderAsyncStep t .sendClick).1.core
          = (recorderStep t.core .sendClick).1 := by
        by_cases hcond : (t.core.audioBlob.isSome && !t.core.isSending) = true <;>
          simp [recorderAsyncStep, recorderStep, hcond]
      rw [hc]
      exact recorderInv_step _ _ ih
  | stepUpload t o _ ih =>
      have hc : (recorderAsyncStep t (.uploadResolve o)).1.core
          = (recorderStep t.core (.uploadResolve o)).1 := by
        by_cases hs : t.core.isSending <;> simp [recorderAsyncStep, recorderStep, hs]
      rw [hc]
      exact recorderInv_step _ _ ih

lemma cameraAsyncInv_step (t : CameraAsync) (e : CameraAsyncEvent) (h : cameraInv t.core) :
    cameraInv (cameraAsyncStep t e).1.core := by
  unfold cameraInv at h ⊢
  cases e with
  | smartClick shot =>
      by_cases hg : (t.core.photo.isSome || t.core.isSending) = true
      · simpa [cameraAsyncStep, hg] using h
      · by_cases hs : t.core.stream
        · simp [cameraAsyncStep, hg, hs, takePhotoCapture, closeCamera, h]
        · simp only [Bool.not_eq_true] at hs
          have h0 : t.core.camSessions = 0 := by simpa [hs] using h
          simp [cameraAsyncStep, hg, hs, h0]
  | gumSettle g =>
      by_cases hp : 0 < t.camPending
      · cases g with
        | granted =>
            by_cases hs : t.core.stream
            · have h1 : t.core.camSessions = 1 := by simpa [hs] using h
              simp [cameraAsyncStep, hp, openCameraSettle, commitCleanup, setStreamOnGrant,
                hs, h1]
            · simp only [Bool.not_eq_true] at hs
              have h0 : t.core.camSessions = 0 := by simpa [hs] using h
              simp [cameraAsyncStep, hp, openCameraSettle, commitCleanup, setStreamOnGrant,
                hs, h0]
        | notAllowed => simpa [cameraAsyncStep, hp, openCameraSettle] using h
        | deviceError m => simpa [cameraAsyncStep, hp, openCameraSettle] using h
        | unknownErr => simpa [cameraAsyncStep, hp, openCameraSettle] using h
      · simpa [cameraAsyncStep, hp] using h
  | retakeClick =>
      by_cases hpp : t.core.photo.isSome <;> simpa [cameraAsyncStep, hpp, retakePhoto] using h
  | uploadResolve o =>
      by_cases hs : t.core.isSending
      · cases o with
        | resolved ok body =>
            cases ok <;> simpa [cameraAsyncStep, hs, photoUploadResolve] using h
        | netError => simpa [cameraAsyncStep, hs, photoUploadResolve] using h
      · simpa [cameraAsyncStep, hs] using h

lemma cameraAsyncInv_reachable (t : CameraAsync) (h : CameraAsyncReachable t) :
    cameraInv t.core := by
  induction h with
  | init => exact cameraInv_init
  | step t e _ ih => exact cameraAsyncInv_step t e ih

/-- C5 counterexample: a second main-button click while the first microphone
permission prompt is still pending is accepted (isRecording is still false,
so the guards pass), and when both prompts are granted two microphone
streams are open at once; the subsequent stop click stops only the recorder
installed last, leaving the first stream open forever — so the claimed
at-most-one-session invariant fails at this concrete reachable state. -/
theorem overlapping_prompts_leak_microphone_stream :
    RecorderAsyncReachable (recorderAsyncRun initialRecorderAsync
      [.mainClick, .mainClick, .gumSettle .granted, .gumSettle .granted]) ∧
    (recorderAsyncRun initialRecorderAsync
      [.mainClick, .mainClick, .gumSettle .granted, .gumSettle .granted]).core.micSessions
        = 2 ∧
    (recorderAsyncRun initialRecorderAsync
      [.mainClick, .mainClick, .gumSettle .granted, .gumSettle .granted,
        .mainClick]).core.micSessions = 1 ∧
    (recorderAsyncRun initialRecorderAsync
      [.mainClick, .mainClick, .gumSettle .granted, .gumSettle .granted,
        .mainClick]).core.isRecording = false := by
  refine ⟨recorderAsyncRun_reachable _ _ RecorderAsyncReachable.init, ?_, ?_, ?_⟩ <;> rfl

/-- C5 amended: a new hardware session is requested only when the component
holds no open session at the time of the click (openCamera only when stream
is null, handleStartRecording only when isRecording is false), but the
permission prompt suspends the handler, so that guard does not cover clicks
arriving while a prompt is pending.  The camera component holds at most one
open session at every turn boundary in all reachable states, because the
effect cleanup stops a superseded stream at the commit of the settling turn
— though two camera streams exist transiently within that turn, as the third
conjunct shows mid-turn.  The recorder holds at most one open session in all
executions in which each permission prompt settles before the next click;
with overlapping prompts it does not (see the counterexample). -/
theorem at_most_one_session_at_turn_boundaries :
    (∀ t : CameraAsync, CameraAsyncReachable t → t.core.camSessions ≤ 1) ∧
    (∀ t : RecorderAsync, RecorderPromptSerialized t → t.core.micSessions ≤ 1) ∧
    (setStreamOnGrant (cameraAsyncRun initialCameraAsync
      [.smartClick [0], .smartClick [0], .gumSettle .granted]).core).camSessions = 2 := by
  refine ⟨?_, ?_, by rfl⟩
  · intro t h
    have hi := cameraAsyncInv_reachable t h
    unfold cameraInv at hi
    rw [hi]
    by_cases hs : t.core.stream <;> simp [hs]
  · intro t h
    have hi := serialized_recorder_inv t h
    rw [hi.1]
    by_cases hr : t.core.isRecording <;> simp [hr]

/-- C5 amended witness: after one granted open in each flow — the camera one
reached through the async machine, the recorder one through a serialized
click-and-settle pair — at most one session is open. -/
theorem at_most_one_session_at_turn_boundaries_witness :
    (cameraAsyncStep initialCameraAsync (.smartClick [3])).1.core.camSessions ≤ 1 ∧
    (recorderAsyncStep (recorderAsyncStep initialRecorderAsync .mainClick).1
      (.gumSettle .granted)).1.core.micSessions ≤ 1 :=
  ⟨at_most_one_session_at_turn_boundaries.1 _
      (CameraAsyncReachable.step _ _ CameraAsyncReachable.init),
   at_most_one_session_at_turn_boundaries.2.1 _
      (RecorderPromptSerialized.stepStartSettle _ .granted rfl
        RecorderPromptSerialized.init)⟩

end CookingLola
